import Mathlib

/-!
Shallow embedding of the album-buffer core of the repository
(`album_buffer.go`): a timer-debounced aggregation buffer keyed by album id.

Go's `map[string]interface{}` values are embedded as the inductive `GoValue`;
a Go map is an association list with first-match lookup (keys are unique in
every state the operations produce).  Go's `time.Time` instants are abstract
`Nat` time-points; the timer of an open album is embedded as its absolute
deadline (`time.AfterFunc(d, f)` arms a deadline `now + d`, `Timer.Reset d`
re-arms it to `now + d`, `Timer.Stop` plays no further role because a fired
timer for a removed key is a no-op).  A nil Go pointer is `Option.none`, and
an operation that would dereference a nil pointer (a runtime panic) returns
`none` in the embedding.  Calls to the external delivery collaborator
`sendEventWithWebHook` are recorded in a delivery log.
-/

namespace AlbumBuffer

/-- Embedding of Go's `interface{}` values as they occur in message contexts
and pass-through metadata: strings, integers, booleans, nested string-keyed
maps, arrays, and nil. -/
inductive GoValue where
  | str (s : String)
  | int (n : Int)
  | bool (b : Bool)
  | map (m : List (String × GoValue))
  | arr (xs : List GoValue)
  | null
deriving Repr

/-- First-match lookup in an association list embedding a Go map. -/
def lookupGo (m : List (String × GoValue)) (k : String) : Option GoValue :=
  (m.find? (fun p => p.1 == k)).map (·.2)

/-- `AlbumMessage`: a single media item in an album (album_buffer.go lines
11-18).  The `S3 map[string]interface{}` field is the pass-through metadata. -/
structure AlbumMessage where
  id : String
  url : String
  base64 : String
  mimeType : String
  fileName : String
  s3 : List (String × GoValue)
deriving Repr

/-- Modelled from the spec: `MyClient` is the opaque session/auth context an
album stores for later delivery; its definition is outside the shown source,
and only its identity is ever used by this core. -/
structure MyClient where
  sessionId : Nat
deriving Repr, DecidableEq

/-- `AlbumData`: all information about a pending album (album_buffer.go lines
21-33).  `timerDeadline` embeds the `Timer *time.Timer` field as the absolute
time at which the armed timer fires (`none` for a nil timer), and `myCli`
embeds the nilable `MyCli *MyClient` pointer. -/
structure AlbumData where
  albumID : String
  chatJID : String
  senderJID : String
  senderAlt : String
  caption : String
  timestamp : Nat
  messages : List AlbumMessage
  timerDeadline : Option Nat
  userID : String
  token : String
  myCli : Option MyClient
deriving Repr

/-- `AlbumWebhookPayload`: the structure built when an album is flushed
(album_buffer.go lines 36-46). -/
structure AlbumWebhookPayload where
  type : String
  albumID : String
  sender : String
  senderLid : String
  chat : String
  caption : String
  timestamp : String
  totalImages : Nat
  images : List AlbumMessage
deriving Repr

/-- The `postmap` handed to `sendEventWithWebHook` (album_buffer.go lines
181-190): a Go map with exactly the nine literal keys set there, embedded as
a record with one field per key. -/
structure Postmap where
  type : String
  albumId : String
  sender : String
  senderLid : String
  chat : String
  caption : String
  timestamp : String
  totalImages : Nat
  images : List AlbumMessage
deriving Repr

/-- Abstract rendering of `album.Timestamp.Format(time.RFC3339)`; the
formatting details of Go's standard library are outside this core, only
that the payload carries a string derived from the creation instant. -/
def formatRFC3339 (t : Nat) : String :=
  toString t

/-- `AlbumBuffer` (album_buffer.go lines 49-54) together with the observable
history of the run: `flushLog` records every payload a flush built
(album_buffer.go line 167), `webhookLog` records every call to the external
delivery collaborator `sendEventWithWebHook` (line 192) with the session
context it was handed. -/
structure BufferState where
  albums : List (String × AlbumData)
  waitSeconds : Nat
  enabled : Bool
  flushLog : List AlbumWebhookPayload
  webhookLog : List (MyClient × Postmap)
deriving Repr

/-- Lookup of an album by key, embedding `ab.albums[albumID]`. -/
def mapLookup (m : List (String × AlbumData)) (k : String) : Option AlbumData :=
  (m.find? (fun p => p.1 == k)).map (·.2)

/-- Replace the value stored under a key (mutation of the found `*AlbumData`
through its pointer). -/
def mapUpdate (m : List (String × AlbumData)) (k : String) (v : AlbumData) :
    List (String × AlbumData) :=
  m.map (fun p => if p.1 == k then (k, v) else p)

/-- `delete(ab.albums, albumID)`. -/
def mapErase (m : List (String × AlbumData)) (k : String) :
    List (String × AlbumData) :=
  m.filter (fun p => p.1 != k)

/-- `InitAlbumBuffer` (album_buffer.go lines 60-70): a fresh buffer with an
empty album map; the logs of the run start empty. -/
def initAlbumBuffer (waitSeconds : Nat) (enabled : Bool) : BufferState :=
  { albums := [], waitSeconds := waitSeconds, enabled := enabled,
    flushLog := [], webhookLog := [] }

/-- `IsEnabled` (album_buffer.go lines 78-80). -/
def isEnabled (s : BufferState) : Bool :=
  s.enabled

/-- `GetPendingCount` (album_buffer.go lines 211-215): `len(ab.albums)`. -/
def getPendingCount (s : BufferState) : Nat :=
  s.albums.length

/-- `HasParentMessageKey` (album_buffer.go lines 218-233): reads the optional
path `messageAssociation.parentMessageKey.ID` out of a nested untyped
message context; each step is a Go type assertion that fails soft.  A nil
map argument is `none`. -/
def hasParentMessageKey (msgContext : Option (List (String × GoValue))) :
    String × Bool :=
  match msgContext with
  | none => ("", false)
  | some ctx =>
    match lookupGo ctx "messageAssociation" with
    | some (GoValue.map msgAssoc) =>
      match lookupGo msgAssoc "parentMessageKey" with
      | some (GoValue.map parentKey) =>
        match lookupGo parentKey "ID" with
        | some (GoValue.str id) => if id != "" then (id, true) else ("", false)
        | _ => ("", false)
      | _ => ("", false)
    | _ => ("", false)

/-- `AddMessage` (album_buffer.go lines 84-140).  `now` is the instant the
call holds the critical section; the armed timer deadline is
`now + waitSeconds`.  The `metadata *AlbumData` pointer is nilable: Go
dereferences it unconditionally on the creation path (lines 96-104) and,
on the subsequent-message path, only when `album.Caption == ""` lets the
short-circuited `&&` reach `metadata.Caption` (line 120); a dereference of
nil is a runtime panic, embedded as `none`.  Returns the new state and the
`isFirst` flag. -/
def addMessage (s : BufferState) (now : Nat) (albumID : String)
    (msg : AlbumMessage) (metadata : Option AlbumData) :
    Option (BufferState × Bool) :=
  match mapLookup s.albums albumID with
  | none =>
    match metadata with
    | none => none
    | some meta =>
      let album : AlbumData :=
        { albumID := albumID
          chatJID := meta.chatJID
          senderJID := meta.senderJID
          senderAlt := meta.senderAlt
          caption := meta.caption
          timestamp := meta.timestamp
          messages := []
          timerDeadline := some (now + s.waitSeconds)
          userID := meta.userID
          token := meta.token
          myCli := meta.myCli }
      let album := { album with messages := album.messages ++ [msg] }
      some ({ s with albums := s.albums ++ [(albumID, album)] }, true)
  | some album =>
    if album.caption == "" then
      match metadata with
      | none => none
      | some meta =>
        let album :=
          if meta.caption != "" then { album with caption := meta.caption }
          else album
        let album :=
          { album with
            timerDeadline := match album.timerDeadline with
              | some _ => some (now + s.waitSeconds)
              | none => none }
        let album := { album with messages := album.messages ++ [msg] }
        some ({ s with albums := mapUpdate s.albums albumID album }, false)
    else
      let album :=
        { album with
          timerDeadline := match album.timerDeadline with
            | some _ => some (now + s.waitSeconds)
            | none => none }
      let album := { album with messages := album.messages ++ [msg] }
      some ({ s with albums := mapUpdate s.albums albumID album }, false)

/-- `AddMessage` at a non-nil metadata pointer, where no panic is possible
(proved in `addMessage_some_isSome`); this total form is what the trace
semantics uses. -/
def addMessageTotal (s : BufferState) (now : Nat) (albumID : String)
    (msg : AlbumMessage) (meta : AlbumData) : BufferState × Bool :=
  (addMessage s now albumID msg (some meta)).getD (s, false)

/-- The `AlbumWebhookPayload` a flush builds from the removed album
(album_buffer.go lines 167-177).  Note the sender mapping of the source:
`Sender` is set from the album's `SenderAlt` and `SenderLid` from the
album's `SenderJID`. -/
def buildPayload (album : AlbumData) : AlbumWebhookPayload :=
  { type := "MessageAlbum"
    albumID := album.albumID
    sender := album.senderAlt
    senderLid := album.senderJID
    chat := album.chatJID
    caption := album.caption
    timestamp := formatRFC3339 album.timestamp
    totalImages := album.messages.length
    images := album.messages }

/-- The flat `postmap` built from the payload for delivery (album_buffer.go
lines 181-190). -/
def buildPostmap (payload : AlbumWebhookPayload) : Postmap :=
  { type := "MessageAlbum"
    albumId := payload.albumID
    sender := payload.sender
    senderLid := payload.senderLid
    chat := payload.chat
    caption := payload.caption
    timestamp := payload.timestamp
    totalImages := payload.totalImages
    images := payload.images }

/-- `flushAlbum` (album_buffer.go lines 143-194): if the key is still
present, remove it, build the `AlbumWebhookPayload`, and — when the stored
session client is non-nil — hand the flat `postmap` to
`sendEventWithWebHook`; if the key is absent the flush is a no-op. -/
def flushAlbum (s : BufferState) (albumID : String) : BufferState :=
  match mapLookup s.albums albumID with
  | none => s
  | some album =>
    let s := { s with albums := mapErase s.albums albumID }
    let payload := buildPayload album
    let s := { s with flushLog := s.flushLog ++ [payload] }
    match album.myCli with
    | none => s
    | some cli =>
      { s with webhookLog := s.webhookLog ++ [(cli, buildPostmap payload)] }

/-- `CancelAlbum` (album_buffer.go lines 197-208): if present, stop the
timer and remove the album; nothing is dispatched. -/
def cancelAlbum (s : BufferState) (albumID : String) : BufferState :=
  match mapLookup s.albums albumID with
  | none => s
  | some _ => { s with albums := mapErase s.albums albumID }

/-! ### Timed trace semantics

External events are `Add` calls and `Cancel` calls carrying the instant at
which they complete the critical section.  Between external events the
scheduler fires every armed timer whose deadline has strictly passed (an
arrival at the exact deadline is the documented race; this semantics
resolves it in favour of the arrival, one of the two accepted orderings).
`quiesce` lets time run out, firing every remaining timer. -/

/-- An external event of the timed semantics. -/
inductive ExtEvent where
  | add (t : Nat) (albumID : String) (msg : AlbumMessage) (meta : AlbumData)
  | cancel (t : Nat) (albumID : String)
deriving Repr

/-- Whether an armed deadline is due under the bound: `some t` means time
has advanced to `t` (deadlines strictly before `t` have fired), `none`
means time has run out and every armed deadline is due. -/
def dueUnder (bound : Option Nat) (d : Option Nat) : Bool :=
  match d with
  | none => false
  | some dv =>
    match bound with
    | none => true
    | some t => dv < t

/-- First album (in insertion order) whose timer is due. -/
def findDue (albums : List (String × AlbumData)) (bound : Option Nat) :
    Option String :=
  (albums.find? (fun p => dueUnder bound p.2.timerDeadline)).map (·.1)

/-- Fire due timers one at a time (each firing is a `flushAlbum`) until none
is due; the fuel is an upper bound on the number of open albums. -/
def fireDueAux : Nat → BufferState → Option Nat → BufferState
  | 0, s, _ => s
  | fuel + 1, s, bound =>
    match findDue s.albums bound with
    | none => s
    | some k => fireDueAux fuel (flushAlbum s k) bound

/-- Fire every timer whose deadline lies strictly before instant `t`. -/
def fireDueBefore (s : BufferState) (t : Nat) : BufferState :=
  fireDueAux s.albums.length s (some t)

/-- Let time run out: fire every remaining armed timer. -/
def quiesce (s : BufferState) : BufferState :=
  fireDueAux s.albums.length s none

/-- One external event: time advances to the event's instant (firing the
timers that became due), then the call runs. -/
def stepEvent (s : BufferState) (e : ExtEvent) : BufferState :=
  match e with
  | .add t k m meta => (addMessageTotal (fireDueBefore s t) t k m meta).1
  | .cancel t k => cancelAlbum (fireDueBefore s t) k

/-- Run a time-ordered list of external events. -/
def runEvents (s : BufferState) (evs : List ExtEvent) : BufferState :=
  evs.foldl stepEvent s

/-- The `Add` calls of one group, as timed events for key `k`: one per
`(instant, item, seed-metadata)` triple. -/
def addEvents (k : String) (calls : List (Nat × AlbumMessage × AlbumData)) :
    List ExtEvent :=
  calls.map (fun c => ExtEvent.add c.1 k c.2.1 c.2.2)

/-- The in-window condition of the debounce claims: starting from the call
that completed at `tprev`, every later call completes no earlier than its
predecessor and strictly less than the debounce duration after it. -/
def withinWindow (wait : Nat) (tprev : Nat) :
    List (Nat × AlbumMessage × AlbumData) → Prop
  | [] => True
  | c :: rest => tprev ≤ c.1 ∧ c.1 < tprev + wait ∧ withinWindow wait c.1 rest

/-- Well-formedness of a buffer state: album keys are unique (Go map). -/
def WF (s : BufferState) : Prop :=
  (s.albums.map (·.1)).Nodup

/-! ### Derived specification of a single debounced group

The functions below are not part of the embedding; they compute, in closed
form, the album an in-window sequence of `Add` calls accumulates, and are
proved equal to the operational behaviour. -/

/-- The caption-merge rule of a subsequent `Add` (album_buffer.go lines
120-122): keep the current caption if non-empty, else adopt a non-empty
incoming one. -/
def mergeCaption (cur incoming : String) : String :=
  if cur == "" && incoming != "" then incoming else cur

/-- The first non-empty string of a list, or `""` if there is none. -/
def firstNonEmpty (l : List String) : String :=
  ((l.find? (fun c => c != "")).getD "")

/-- Effect of one subsequent in-window `Add` call on an open album. -/
def foldAdd (wait : Nat) (a : AlbumData) (c : Nat × AlbumMessage × AlbumData) :
    AlbumData :=
  { a with
    caption := mergeCaption a.caption c.2.2.caption
    timerDeadline := some (c.1 + wait)
    messages := a.messages ++ [c.2.1] }

/-- Effect of a sequence of subsequent in-window `Add` calls. -/
def foldAlbum (wait : Nat) (a : AlbumData) (calls : List (Nat × AlbumMessage × AlbumData)) :
    AlbumData :=
  calls.foldl (foldAdd wait) a

/-- The album the creating `Add` call stores (album_buffer.go lines
94-111 and 131). -/
def createdAlbum (wait : Nat) (k : String) (c : Nat × AlbumMessage × AlbumData) :
    AlbumData :=
  { albumID := k
    chatJID := c.2.2.chatJID
    senderJID := c.2.2.senderJID
    senderAlt := c.2.2.senderAlt
    caption := c.2.2.caption
    timestamp := c.2.2.timestamp
    messages := [c.2.1]
    timerDeadline := some (c.1 + wait)
    userID := c.2.2.userID
    token := c.2.2.token
    myCli := c.2.2.myCli }

/-- The album accumulated by a creating call `c` followed by the in-window
calls `rest`. -/
def groupAlbum (wait : Nat) (k : String) (c : Nat × AlbumMessage × AlbumData)
    (rest : List (Nat × AlbumMessage × AlbumData)) : AlbumData :=
  foldAlbum wait (createdAlbum wait k c) rest

/-- The final state of a run consisting of one debounced group: the group's
flush has fired, the store is empty, and the payload was delivered exactly
when the stored session client is non-nil. -/
def singleGroupFinal (wait : Nat) (en : Bool) (k : String)
    (c : Nat × AlbumMessage × AlbumData)
    (rest : List (Nat × AlbumMessage × AlbumData)) : BufferState :=
  { albums := []
    waitSeconds := wait
    enabled := en
    flushLog := [buildPayload (groupAlbum wait k c rest)]
    webhookLog :=
      match (groupAlbum wait k c rest).myCli with
      | none => []
      | some cli => [(cli, buildPostmap (buildPayload (groupAlbum wait k c rest)))] }

/-- The album stored after a subsequent `AddMessage` found the key open
(album_buffer.go lines 118-131): merged caption, timer reset to the full
duration when armed, item appended. -/
def addedAlbum (wait now : Nat) (a : AlbumData) (m : AlbumMessage)
    (meta : AlbumData) : AlbumData :=
  { a with
    caption := mergeCaption a.caption meta.caption
    timerDeadline := match a.timerDeadline with
      | some _ => some (now + wait)
      | none => none
    messages := a.messages ++ [m] }

/-! ### Concrete fixtures for witnesses and counterexamples -/

/-- A first media item. -/
def msgOne : AlbumMessage :=
  { id := "m1", url := "http://x/1.jpg", base64 := "", mimeType := "image/jpeg",
    fileName := "1.jpg", s3 := [] }

/-- A second media item. -/
def msgTwo : AlbumMessage :=
  { id := "m2", url := "", base64 := "QUJD", mimeType := "image/png",
    fileName := "2.png", s3 := [("bucket", GoValue.str "b")] }

/-- A concrete session client. -/
def cliSeven : MyClient :=
  { sessionId := 7 }

/-- Seed metadata with caption "hi" and a live session client. -/
def seedHi : AlbumData :=
  { albumID := "", chatJID := "chat@g.us", senderJID := "primary@lid",
    senderAlt := "alt@s.whatsapp.net", caption := "hi", timestamp := 100,
    messages := [], timerDeadline := none, userID := "u1", token := "tok",
    myCli := some cliSeven }

/-- Seed metadata like `seedHi` but with an empty caption. -/
def seedEmptyCap : AlbumData :=
  { seedHi with caption := "" }

/-- Seed metadata like `seedHi` but with a nil session client. -/
def seedNoCli : AlbumData :=
  { seedHi with myCli := none }

/-! ### Helper lemmas -/

theorem mapLookup_nil (k : String) : mapLookup [] k = none :=
  rfl

theorem mapLookup_cons (p : String × AlbumData) (t : List (String × AlbumData))
    (k : String) :
    mapLookup (p :: t) k = if p.1 == k then some p.2 else mapLookup t k := by
  cases h : p.1 == k <;> simp [mapLookup, List.find?, h]

theorem mapErase_cons (p : String × AlbumData) (t : List (String × AlbumData))
    (k : String) :
    mapErase (p :: t) k = if p.1 == k then mapErase t k else p :: mapErase t k := by
  cases h : p.1 == k <;> simp [mapErase, List.filter, bne, h]

theorem mapUpdate_cons (p : String × AlbumData) (t : List (String × AlbumData))
    (k : String) (v : AlbumData) :
    mapUpdate (p :: t) k v = (if p.1 == k then (k, v) else p) :: mapUpdate t k v :=
  rfl

theorem mapLookup_append_single (m : List (String × AlbumData)) (k : String)
    (v : AlbumData) (h : mapLookup m k = none) :
    mapLookup (m ++ [(k, v)]) k = some v := by
  induction m with
  | nil => simp [mapLookup, List.find?]
  | cons p t ih =>
    rw [mapLookup_cons] at h
    rw [List.cons_append, mapLookup_cons]
    cases hp : p.1 == k with
    | true => rw [hp] at h; simp at h
    | false => rw [hp] at h; simp; exact ih h

theorem mapLookup_update_self (m : List (String × AlbumData)) (k : String)
    (a v : AlbumData) (h : mapLookup m k = some a) :
    mapLookup (mapUpdate m k v) k = some v := by
  induction m with
  | nil => simp [mapLookup] at h
  | cons p t ih =>
    rw [mapLookup_cons] at h
    rw [mapUpdate_cons]
    cases hp : p.1 == k with
    | true => rw [hp] at h; simp [mapLookup_cons]
    | false =>
      rw [hp] at h
      simp at h
      rw [mapLookup_cons]
      simp [hp]
      exact ih h

theorem mapLookup_erase_self (m : List (String × AlbumData)) (k : String) :
    mapLookup (mapErase m k) k = none := by
  induction m with
  | nil => rfl
  | cons p t ih =>
    rw [mapErase_cons]
    cases hp : p.1 == k with
    | true => simpa using ih
    | false => simp [mapLookup_cons, hp]; exact ih

theorem mapErase_of_not_mem (m : List (String × AlbumData)) (k : String)
    (h : k ∉ m.map (·.1)) : mapErase m k = m := by
  induction m with
  | nil => rfl
  | cons p t ih =>
    rw [List.map_cons] at h
    have h1 : k ≠ p.1 := fun he => h (by rw [he]; exact List.mem_cons_self _ _)
    have h2 : k ∉ t.map (·.1) := fun hm => h (List.mem_cons_of_mem _ hm)
    have hp : (p.1 == k) = false := beq_eq_false_iff_ne.mpr (fun he => h1 he.symm)
    rw [mapErase_cons, hp, ih h2]
    simp

theorem mapErase_length (m : List (String × AlbumData)) (k : String) (a : AlbumData)
    (hnd : (m.map (·.1)).Nodup) (h : mapLookup m k = some a) :
    (mapErase m k).length + 1 = m.length := by
  induction m with
  | nil => simp [mapLookup] at h
  | cons p t ih =>
    rw [List.map_cons, List.nodup_cons] at hnd
    rw [mapLookup_cons] at h
    rw [mapErase_cons]
    cases hp : p.1 == k with
    | true =>
      have hpk : p.1 = k := by simpa using hp
      rw [if_pos rfl, mapErase_of_not_mem t k (by rw [← hpk]; exact hnd.1)]
      simp
    | false =>
      rw [hp] at h
      simp only [Bool.false_eq_true, if_false] at h ⊢
      simp [ih hnd.2 h]

theorem flushAlbum_of_lookup_none (s : BufferState) (k : String)
    (h : mapLookup s.albums k = none) : flushAlbum s k = s := by
  unfold flushAlbum
  rw [h]

theorem cancelAlbum_of_lookup_none (s : BufferState) (k : String)
    (h : mapLookup s.albums k = none) : cancelAlbum s k = s := by
  unfold cancelAlbum
  rw [h]

theorem addMessage_isSome (s : BufferState) (now : Nat) (k : String)
    (m : AlbumMessage) (meta : AlbumData) :
    (addMessage s now k m (some meta)).isSome = true := by
  unfold addMessage
  cases mapLookup s.albums k with
  | none => rfl
  | some a => cases h : a.caption == "" <;> simp [h]

theorem addMessage_found (s : BufferState) (now : Nat) (k : String)
    (m : AlbumMessage) (meta a : AlbumData) (h : mapLookup s.albums k = some a) :
    addMessage s now k m (some meta)
      = some ({ s with albums := mapUpdate s.albums k (addedAlbum s.waitSeconds now a m meta) },
              false) := by
  cases hc : a.caption == "" with
  | true =>
    have hcap : a.caption = "" := by simpa using hc
    cases hmc : meta.caption == "" with
    | true =>
      have hmcap : meta.caption = "" := by simpa using hmc
      simp [addMessage, h, hc, addedAlbum, mergeCaption, hcap, hmcap]
    | false =>
      have hb : (meta.caption != "") = true := by simp [bne, hmc]
      simp [addMessage, h, hc, hb, addedAlbum, mergeCaption, hcap]
  | false =>
    simp [addMessage, h, hc, addedAlbum, mergeCaption]

theorem addMessage_create (s : BufferState) (now : Nat) (k : String)
    (m : AlbumMessage) (meta : AlbumData) (h : mapLookup s.albums k = none) :
    addMessage s now k m (some meta)
      = some ({ s with albums := s.albums ++
          [(k, { albumID := k, chatJID := meta.chatJID, senderJID := meta.senderJID,
                 senderAlt := meta.senderAlt, caption := meta.caption,
                 timestamp := meta.timestamp, messages := [m],
                 timerDeadline := some (now + s.waitSeconds), userID := meta.userID,
                 token := meta.token, myCli := meta.myCli })] }, true) := by
  simp [addMessage, h]

theorem foldAlbum_albumID (wait : Nat) (calls : List (Nat × AlbumMessage × AlbumData)) :
    ∀ a : AlbumData, (foldAlbum wait a calls).albumID = a.albumID := by
  induction calls with
  | nil => intro a; rfl
  | cons c cs ih => intro a; simpa [foldAlbum] using ih (foldAdd wait a c)

theorem foldAlbum_chatJID (wait : Nat) (calls : List (Nat × AlbumMessage × AlbumData)) :
    ∀ a : AlbumData, (foldAlbum wait a calls).chatJID = a.chatJID := by
  induction calls with
  | nil => intro a; rfl
  | cons c cs ih => intro a; simpa [foldAlbum] using ih (foldAdd wait a c)

theorem foldAlbum_senderJID (wait : Nat) (calls : List (Nat × AlbumMessage × AlbumData)) :
    ∀ a : AlbumData, (foldAlbum wait a calls).senderJID = a.senderJID := by
  induction calls with
  | nil => intro a; rfl
  | cons c cs ih => intro a; simpa [foldAlbum] using ih (foldAdd wait a c)

theorem foldAlbum_senderAlt (wait : Nat) (calls : List (Nat × AlbumMessage × AlbumData)) :
    ∀ a : AlbumData, (foldAlbum wait a calls).senderAlt = a.senderAlt := by
  induction calls with
  | nil => intro a; rfl
  | cons c cs ih => intro a; simpa [foldAlbum] using ih (foldAdd wait a c)

theorem foldAlbum_timestamp (wait : Nat) (calls : List (Nat × AlbumMessage × AlbumData)) :
    ∀ a : AlbumData, (foldAlbum wait a calls).timestamp = a.timestamp := by
  induction calls with
  | nil => intro a; rfl
  | cons c cs ih => intro a; simpa [foldAlbum] using ih (foldAdd wait a c)

theorem foldAlbum_myCli (wait : Nat) (calls : List (Nat × AlbumMessage × AlbumData)) :
    ∀ a : AlbumData, (foldAlbum wait a calls).myCli = a.myCli := by
  induction calls with
  | nil => intro a; rfl
  | cons c cs ih => intro a; simpa [foldAlbum] using ih (foldAdd wait a c)

theorem foldAlbum_messages (wait : Nat) (calls : List (Nat × AlbumMessage × AlbumData)) :
    ∀ a : AlbumData,
      (foldAlbum wait a calls).messages = a.messages ++ calls.map (fun c => c.2.1) := by
  induction calls with
  | nil => intro a; simp [foldAlbum]
  | cons c cs ih =>
    intro a
    rw [foldAlbum, List.foldl_cons]
    rw [show List.foldl (foldAdd wait) (foldAdd wait a c) cs = foldAlbum wait (foldAdd wait a c) cs from rfl]
    rw [ih (foldAdd wait a c)]
    simp [foldAdd]

theorem foldAlbum_caption (wait : Nat) (calls : List (Nat × AlbumMessage × AlbumData)) :
    ∀ a : AlbumData,
      (foldAlbum wait a calls).caption
        = List.foldl mergeCaption a.caption (calls.map (fun c => c.2.2.caption)) := by
  induction calls with
  | nil => intro a; rfl
  | cons c cs ih =>
    intro a
    rw [foldAlbum, List.foldl_cons]
    rw [show List.foldl (foldAdd wait) (foldAdd wait a c) cs = foldAlbum wait (foldAdd wait a c) cs from rfl]
    rw [ih (foldAdd wait a c)]
    simp [foldAdd]

theorem foldAlbum_deadline_isSome (wait : Nat) (calls : List (Nat × AlbumMessage × AlbumData)) :
    ∀ a : AlbumData, a.timerDeadline.isSome = true →
      (foldAlbum wait a calls).timerDeadline.isSome = true := by
  induction calls with
  | nil => intro a h; exact h
  | cons c cs ih =>
    intro a h
    rw [foldAlbum, List.foldl_cons]
    exact ih (foldAdd wait a c) rfl

theorem foldl_mergeCaption_eq_firstNonEmpty (caps : List String) :
    ∀ seed : String, List.foldl mergeCaption seed caps = firstNonEmpty (seed :: caps) := by
  induction caps with
  | nil =>
    intro seed
    by_cases h : seed = ""
    · simp [firstNonEmpty, List.find?, h]
    · have hb : (seed != "") = true := bne_iff_ne.mpr h
      simp [firstNonEmpty, List.find?, hb]
  | cons c cs ih =>
    intro seed
    rw [List.foldl_cons, ih (mergeCaption seed c)]
    by_cases hs : seed = ""
    · by_cases hc : c = ""
      · simp [mergeCaption, firstNonEmpty, List.find?, hs, hc]
      · have hb : (c != "") = true := bne_iff_ne.mpr hc
        simp [mergeCaption, firstNonEmpty, List.find?, hs, hb]
    · have hb : (seed != "") = true := bne_iff_ne.mpr hs
      have hm : mergeCaption seed c = seed := by
        simp [mergeCaption, beq_eq_false_iff_ne.mpr hs]
      rw [hm]
      simp [firstNonEmpty, List.find?, hb]

theorem fireDueAux_no_due (fuel : Nat) (s : BufferState) (bound : Option Nat)
    (h : findDue s.albums bound = none) : fireDueAux fuel s bound = s := by
  cases fuel with
  | zero => rfl
  | succ n => simp [fireDueAux, h]

theorem fireDueBefore_no_due (s : BufferState) (t : Nat)
    (h : findDue s.albums (some t) = none) : fireDueBefore s t = s :=
  fireDueAux_no_due _ s _ h

theorem findDue_single_not_due (k : String) (a : AlbumData) (t : Nat) (d : Nat)
    (ha : a.timerDeadline = some d) (hnot : ¬ d < t) :
    findDue [(k, a)] (some t) = none := by
  simp [findDue, List.find?, dueUnder, ha, hnot]

theorem fireDueBefore_single (k : String) (a : AlbumData) (wait : Nat) (en : Bool)
    (fl : List AlbumWebhookPayload) (wl : List (MyClient × Postmap)) (t : Nat) (d : Nat)
    (ha : a.timerDeadline = some d) (hnot : ¬ d < t) :
    fireDueBefore ⟨[(k, a)], wait, en, fl, wl⟩ t = ⟨[(k, a)], wait, en, fl, wl⟩ :=
  fireDueBefore_no_due _ _ (findDue_single_not_due k a t d ha hnot)

theorem mapLookup_single_self (k : String) (a : AlbumData) :
    mapLookup [(k, a)] k = some a := by
  simp [mapLookup, List.find?]

theorem addMessageTotal_single (k : String) (a : AlbumData) (wait : Nat) (en : Bool)
    (fl : List AlbumWebhookPayload) (wl : List (MyClient × Postmap)) (now : Nat)
    (m : AlbumMessage) (meta : AlbumData) (d : Nat) (ha : a.timerDeadline = some d) :
    addMessageTotal ⟨[(k, a)], wait, en, fl, wl⟩ now k m meta
      = (⟨[(k, foldAdd wait a (now, m, meta))], wait, en, fl, wl⟩, false) := by
  have hlook : mapLookup [(k, a)] k = some a := mapLookup_single_self k a
  have hupd : ∀ v : AlbumData, mapUpdate [(k, a)] k v = [(k, v)] := by
    intro v
    simp [mapUpdate]
  cases hc : a.caption == "" with
  | true =>
    have hcap : a.caption = "" := by simpa using hc
    cases hmc : meta.caption == "" with
    | true =>
      have hmcap : meta.caption = "" := by simpa using hmc
      simp [addMessageTotal, addMessage, hlook, hc, hupd, ha, foldAdd, mergeCaption, hcap, hmcap]
    | false =>
      have hb : (meta.caption != "") = true := by simp [bne, hmc]
      simp [addMessageTotal, addMessage, hlook, hc, hb, hupd, ha, foldAdd, mergeCaption, hcap]
  | false =>
    simp [addMessageTotal, addMessage, hlook, hc, hupd, ha, foldAdd, mergeCaption]

theorem runEvents_adds_open (wait : Nat) (en : Bool) (k : String)
    (fl : List AlbumWebhookPayload) (wl : List (MyClient × Postmap))
    (calls : List (Nat × AlbumMessage × AlbumData)) :
    ∀ (a : AlbumData) (tprev : Nat),
      a.timerDeadline = some (tprev + wait) →
      withinWindow wait tprev calls →
      runEvents ⟨[(k, a)], wait, en, fl, wl⟩ (addEvents k calls)
        = ⟨[(k, foldAlbum wait a calls)], wait, en, fl, wl⟩ := by
  induction calls with
  | nil =>
    intro a tprev ha hw
    simp [runEvents, addEvents, foldAlbum]
  | cons c rest ih =>
    intro a tprev ha hw
    obtain ⟨h1, h2, h3⟩ := hw
    have hnot : ¬ (tprev + wait < c.1) := Nat.not_lt.mpr (Nat.le_of_lt h2)
    have hstep : stepEvent ⟨[(k, a)], wait, en, fl, wl⟩ (ExtEvent.add c.1 k c.2.1 c.2.2)
        = ⟨[(k, foldAdd wait a c)], wait, en, fl, wl⟩ := by
      rw [stepEvent, fireDueBefore_single k a wait en fl wl c.1 (tprev + wait) ha hnot]
      rw [addMessageTotal_single k a wait en fl wl c.1 c.2.1 c.2.2 (tprev + wait) ha]
    rw [addEvents, List.map_cons, runEvents, List.foldl_cons, hstep]
    rw [show List.foldl stepEvent ⟨[(k, foldAdd wait a c)], wait, en, fl, wl⟩
          (List.map (fun c => ExtEvent.add c.1 k c.2.1 c.2.2) rest)
        = runEvents ⟨[(k, foldAdd wait a c)], wait, en, fl, wl⟩ (addEvents k rest) from rfl]
    rw [ih (foldAdd wait a c) c.1 rfl h3]
    simp [foldAlbum]

theorem flushAlbum_single (k : String) (a : AlbumData) (wait : Nat) (en : Bool)
    (fl : List AlbumWebhookPayload) (wl : List (MyClient × Postmap)) :
    flushAlbum ⟨[(k, a)], wait, en, fl, wl⟩ k
      = { albums := [], waitSeconds := wait, enabled := en,
          flushLog := fl ++ [buildPayload a],
          webhookLog := match a.myCli with
            | none => wl
            | some cli => wl ++ [(cli, buildPostmap (buildPayload a))] } := by
  have hlook : mapLookup [(k, a)] k = some a := mapLookup_single_self k a
  have herase : mapErase [(k, a)] k = [] := by
    simp [mapErase, List.filter]
  cases hcli : a.myCli <;> simp [flushAlbum, hlook, herase, hcli]

theorem quiesce_single (k : String) (a : AlbumData) (wait : Nat) (en : Bool)
    (fl : List AlbumWebhookPayload) (wl : List (MyClient × Postmap))
    (ha : a.timerDeadline.isSome = true) :
    quiesce ⟨[(k, a)], wait, en, fl, wl⟩ = flushAlbum ⟨[(k, a)], wait, en, fl, wl⟩ k := by
  obtain ⟨d, hd⟩ := Option.isSome_iff_exists.mp ha
  have hfind : findDue [(k, a)] none = some k := by
    simp [findDue, List.find?, dueUnder, hd]
  show fireDueAux 1 _ none = _
  rw [show (1 : Nat) = 0 + 1 from rfl]
  simp [fireDueAux, hfind]

theorem single_group_run (wait : Nat) (en : Bool) (k : String)
    (c : Nat × AlbumMessage × AlbumData) (rest : List (Nat × AlbumMessage × AlbumData))
    (hw : withinWindow wait c.1 rest) :
    quiesce (runEvents (initAlbumBuffer wait en) (addEvents k (c :: rest)))
      = singleGroupFinal wait en k c rest := by
  have hstep0 : stepEvent (initAlbumBuffer wait en) (ExtEvent.add c.1 k c.2.1 c.2.2)
      = ⟨[(k, createdAlbum wait k c)], wait, en, [], []⟩ := by
    rw [stepEvent]
    rw [show fireDueBefore (initAlbumBuffer wait en) c.1 = initAlbumBuffer wait en from rfl]
    rfl
  rw [addEvents, List.map_cons, runEvents, List.foldl_cons, hstep0]
  rw [show List.foldl stepEvent ⟨[(k, createdAlbum wait k c)], wait, en, [], []⟩
        (List.map (fun c => ExtEvent.add c.1 k c.2.1 c.2.2) rest)
      = runEvents ⟨[(k, createdAlbum wait k c)], wait, en, [], []⟩ (addEvents k rest) from rfl]
  rw [runEvents_adds_open wait en k [] [] rest (createdAlbum wait k c) c.1 rfl hw]
  rw [quiesce_single k _ wait en [] []
    (foldAlbum_deadline_isSome wait rest (createdAlbum wait k c) rfl)]
  rw [flushAlbum_single]
  rw [singleGroupFinal, groupAlbum]
  cases (foldAlbum wait (createdAlbum wait k c) rest).myCli <;> simp

/-! ### Claim theorems -/

/-- C4: `AddMessage` returns `wasCreated = true` exactly when no open album
for the key exists at the start of its critical section, and `false` for
every other call while the key is open. -/
theorem wasCreated_iff_absent (s : BufferState) (now : Nat) (k : String)
    (m : AlbumMessage) (meta : AlbumData) :
    (addMessage s now k m (some meta)).map Prod.snd = some true
      ↔ mapLookup s.albums k = none := by
  cases hl : mapLookup s.albums k with
  | none => simp [addMessage, hl]
  | some a => cases hc : a.caption == "" <;> simp [addMessage, hl, hc]

/-- C7: `flushAlbum` and `CancelAlbum` on a key with no open album are
no-ops that leave the whole state (store and logs) unchanged and dispatch
nothing, and `CancelAlbum` is idempotent. -/
theorem flush_cancel_absent_noop (s : BufferState) (k : String) :
    (mapLookup s.albums k = none → flushAlbum s k = s ∧ cancelAlbum s k = s)
    ∧ cancelAlbum (cancelAlbum s k) k = cancelAlbum s k := by
  constructor
  · intro h
    exact ⟨flushAlbum_of_lookup_none s k h, cancelAlbum_of_lookup_none s k h⟩
  · cases h : mapLookup s.albums k with
    | none => rw [cancelAlbum_of_lookup_none s k h, cancelAlbum_of_lookup_none s k h]
    | some a =>
      have hc : cancelAlbum s k = { s with albums := mapErase s.albums k } := by
        unfold cancelAlbum
        rw [h]
      rw [hc]
      exact cancelAlbum_of_lookup_none _ _ (mapLookup_erase_self _ _)

/-- C7 witness: on the empty buffer, flushing and cancelling the absent key
"K" are both the identity. -/
theorem flush_cancel_absent_noop_witness :
    flushAlbum (initAlbumBuffer 5 true) "K" = initAlbumBuffer 5 true
    ∧ cancelAlbum (initAlbumBuffer 5 true) "K" = initAlbumBuffer 5 true :=
  (flush_cancel_absent_noop (initAlbumBuffer 5 true) "K").1 rfl

/-- C9 counterexample: an `AddMessage` call with no seed metadata at all (a
nil `*AlbumData` pointer) on an unseen key dereferences nil and panics —
embedded as `none` — instead of forming the group with blank fields. -/
theorem addMessage_nil_metadata_counterexample :
    addMessage (initAlbumBuffer 5 true) 0 "ALBUM1" msgOne none = none :=
  rfl

/-- C9 amended: every `AddMessage` call whose seed metadata pointer is
non-nil — whatever its field values, empty included — completes without
error: the group is created or extended and the item is appended last. -/
theorem addMessage_never_rejects (s : BufferState) (now : Nat) (k : String)
    (m : AlbumMessage) (meta : AlbumData) :
    ∃ s' b, addMessage s now k m (some meta) = some (s', b)
      ∧ ∃ a, mapLookup s'.albums k = some a ∧ a.messages.getLast? = some m := by
  cases hl : mapLookup s.albums k with
  | none =>
    refine ⟨_, true, addMessage_create s now k m meta hl, ?_⟩
    refine ⟨_, mapLookup_append_single s.albums k _ hl, ?_⟩
    rfl
  | some a =>
    refine ⟨_, false, addMessage_found s now k m meta a hl, ?_⟩
    refine ⟨_, mapLookup_update_self s.albums k a _ hl, ?_⟩
    simp [addedAlbum]

/-- C6: cancelling a key with an open album removes it (pending count drops
by exactly one), dispatches nothing, and a later flush attempt for the key
is a no-op, so no delivery for that group ever occurs. -/
theorem cancel_removes_group (s : BufferState) (k : String) (a : AlbumData)
    (hwf : WF s) (h : mapLookup s.albums k = some a) :
    mapLookup (cancelAlbum s k).albums k = none
    ∧ getPendingCount (cancelAlbum s k) + 1 = getPendingCount s
    ∧ (cancelAlbum s k).flushLog = s.flushLog
    ∧ (cancelAlbum s k).webhookLog = s.webhookLog
    ∧ flushAlbum (cancelAlbum s k) k = cancelAlbum s k := by
  have hc : cancelAlbum s k = { s with albums := mapErase s.albums k } := by
    unfold cancelAlbum
    rw [h]
  rw [hc]
  refine ⟨mapLookup_erase_self _ _, mapErase_length _ _ a hwf h, rfl, rfl, ?_⟩
  exact flushAlbum_of_lookup_none _ _ (mapLookup_erase_self _ _)

/-- C6 witness: cancelling "K" in a buffer holding exactly the album "K". -/
theorem cancel_removes_group_witness :
    mapLookup (cancelAlbum ((addMessageTotal (initAlbumBuffer 5 true) 0 "K" msgOne seedHi).1)
        "K").albums "K" = none
    ∧ getPendingCount (cancelAlbum ((addMessageTotal (initAlbumBuffer 5 true) 0 "K" msgOne seedHi).1) "K") + 1
        = getPendingCount ((addMessageTotal (initAlbumBuffer 5 true) 0 "K" msgOne seedHi).1)
    ∧ (cancelAlbum ((addMessageTotal (initAlbumBuffer 5 true) 0 "K" msgOne seedHi).1) "K").flushLog
        = ((addMessageTotal (initAlbumBuffer 5 true) 0 "K" msgOne seedHi).1).flushLog
    ∧ (cancelAlbum ((addMessageTotal (initAlbumBuffer 5 true) 0 "K" msgOne seedHi).1) "K").webhookLog
        = ((addMessageTotal (initAlbumBuffer 5 true) 0 "K" msgOne seedHi).1).webhookLog
    ∧ flushAlbum (cancelAlbum ((addMessageTotal (initAlbumBuffer 5 true) 0 "K" msgOne seedHi).1) "K") "K"
        = cancelAlbum ((addMessageTotal (initAlbumBuffer 5 true) 0 "K" msgOne seedHi).1) "K" :=
  cancel_removes_group _ "K" (createdAlbum 5 "K" (0, msgOne, seedHi))
    (by simp only [WF]; decide) rfl

/-- C10: when the stored session client is nil, a firing flush still removes
the album (pending count drops by one) but makes no delivery call: the
delivery log is unchanged and the buffered items are dropped silently. -/
theorem flush_nil_client_drops_silently (s : BufferState) (k : String) (a : AlbumData)
    (hwf : WF s) (h : mapLookup s.albums k = some a) (hcli : a.myCli = none) :
    mapLookup (flushAlbum s k).albums k = none
    ∧ getPendingCount (flushAlbum s k) + 1 = getPendingCount s
    ∧ (flushAlbum s k).webhookLog = s.webhookLog := by
  have hf : flushAlbum s k
      = { s with
          albums := mapErase s.albums k
          flushLog := s.flushLog ++ [buildPayload a] } := by
    unfold flushAlbum
    rw [h]
    simp [hcli]
  rw [hf]
  exact ⟨mapLookup_erase_self _ _, mapErase_length _ _ a hwf h, rfl⟩

/-- C10 witness: flushing "K" whose album was seeded with a nil client. -/
theorem flush_nil_client_drops_silently_witness :
    mapLookup (flushAlbum ((addMessageTotal (initAlbumBuffer 5 true) 0 "K" msgOne seedNoCli).1)
        "K").albums "K" = none
    ∧ getPendingCount (flushAlbum ((addMessageTotal (initAlbumBuffer 5 true) 0 "K" msgOne seedNoCli).1) "K") + 1
        = getPendingCount ((addMessageTotal (initAlbumBuffer 5 true) 0 "K" msgOne seedNoCli).1)
    ∧ (flushAlbum ((addMessageTotal (initAlbumBuffer 5 true) 0 "K" msgOne seedNoCli).1) "K").webhookLog
        = ((addMessageTotal (initAlbumBuffer 5 true) 0 "K" msgOne seedNoCli).1).webhookLog :=
  flush_nil_client_drops_silently _ "K" (createdAlbum 5 "K" (0, msgOne, seedNoCli))
    (by simp only [WF]; decide) rfl rfl

/-- C5: the caption is seeded from the creating call; a subsequent call
replaces it exactly per the merge rule (adopt the incoming caption only when
the current one is empty and the incoming one is not), a non-empty caption
is never changed, and the flushed caption of a debounced group is the first
non-empty caption supplied. -/
theorem caption_merge_monotonic :
    (∀ (s : BufferState) (now : Nat) (k : String) (m : AlbumMessage) (meta : AlbumData),
      mapLookup s.albums k = none →
        (mapLookup ((addMessageTotal s now k m meta).1).albums k).map AlbumData.caption
          = some meta.caption)
    ∧ (∀ (s : BufferState) (now : Nat) (k : String) (m : AlbumMessage) (meta a : AlbumData),
      mapLookup s.albums k = some a →
        (mapLookup ((addMessageTotal s now k m meta).1).albums k).map AlbumData.caption
            = some (mergeCaption a.caption meta.caption)
          ∧ (a.caption ≠ "" →
            (mapLookup ((addMessageTotal s now k m meta).1).albums k).map AlbumData.caption
              = some a.caption))
    ∧ (∀ (wait : Nat) (en : Bool) (k : String) (c : Nat × AlbumMessage × AlbumData)
        (rest : List (Nat × AlbumMessage × AlbumData)),
      withinWindow wait c.1 rest →
        (quiesce (runEvents (initAlbumBuffer wait en) (addEvents k (c :: rest)))).flushLog.map
            AlbumWebhookPayload.caption
          = [firstNonEmpty (c.2.2.caption :: rest.map (fun x => x.2.2.caption))]) := by
  refine ⟨?_, ?_, ?_⟩
  · intro s now k m meta hl
    rw [addMessageTotal, addMessage_create s now k m meta hl]
    rw [Option.getD_some]
    dsimp only
    rw [mapLookup_append_single s.albums k _ hl]
    rfl
  · intro s now k m meta a hl
    have hmain : (mapLookup ((addMessageTotal s now k m meta).1).albums k).map AlbumData.caption
        = some (mergeCaption a.caption meta.caption) := by
      rw [addMessageTotal, addMessage_found s now k m meta a hl]
      rw [Option.getD_some]
      dsimp only
      rw [mapLookup_update_self s.albums k a _ hl]
      rfl
    refine ⟨hmain, fun hne => ?_⟩
    rw [hmain]
    have : mergeCaption a.caption meta.caption = a.caption := by
      simp [mergeCaption, beq_eq_false_iff_ne.mpr hne]
    rw [this]
  · intro wait en k c rest hw
    rw [single_group_run wait en k c rest hw]
    rw [show (singleGroupFinal wait en k c rest).flushLog
        = [buildPayload (groupAlbum wait k c rest)] from rfl]
    rw [List.map_cons, List.map_nil]
    rw [show (buildPayload (groupAlbum wait k c rest)).caption
        = (groupAlbum wait k c rest).caption from rfl]
    rw [groupAlbum, foldAlbum_caption]
    rw [show (createdAlbum wait k c).caption = c.2.2.caption from rfl]
    rw [foldl_mergeCaption_eq_firstNonEmpty]

/-- C5 witness: an empty-caption creating call followed by a "hi" call
yields the merged caption "hi", and the seeded caption of a creating call
is the metadata's caption. -/
theorem caption_merge_monotonic_witness :
    (mapLookup (initAlbumBuffer 5 true).albums "K" = none
      ∧ (mapLookup ((addMessageTotal (initAlbumBuffer 5 true) 0 "K" msgOne seedEmptyCap).1).albums
          "K").map AlbumData.caption = some seedEmptyCap.caption)
    ∧ (mapLookup ((addMessageTotal ((addMessageTotal (initAlbumBuffer 5 true) 0 "K" msgOne
          seedEmptyCap).1) 3 "K" msgTwo seedHi).1).albums "K").map AlbumData.caption
        = some (mergeCaption (createdAlbum 5 "K" (0, msgOne, seedEmptyCap)).caption seedHi.caption) :=
  ⟨⟨rfl, caption_merge_monotonic.1 (initAlbumBuffer 5 true) 0 "K" msgOne seedEmptyCap rfl⟩,
   (caption_merge_monotonic.2.1 ((addMessageTotal (initAlbumBuffer 5 true) 0 "K" msgOne
      seedEmptyCap).1) 3 "K" msgTwo seedHi (createdAlbum 5 "K" (0, msgOne, seedEmptyCap)) rfl).1⟩

/-- C8: `HasParentMessageKey` returns `(id, true)` exactly when the context
is a non-nil map whose "messageAssociation" entry is a map whose
"parentMessageKey" entry is a map whose "ID" entry is a non-empty string
`id`; in every other case it returns `("", false)`.  The embedding is a
pure function, so the argument is never mutated. -/
theorem hasParentMessageKey_spec (ctx : Option (List (String × GoValue))) :
    (∀ id : String,
      hasParentMessageKey ctx = (id, true) ↔
        (id ≠ "" ∧ ∃ m msgAssoc parentKey, ctx = some m
          ∧ lookupGo m "messageAssociation" = some (GoValue.map msgAssoc)
          ∧ lookupGo msgAssoc "parentMessageKey" = some (GoValue.map parentKey)
          ∧ lookupGo parentKey "ID" = some (GoValue.str id)))
    ∧ ((¬ ∃ m msgAssoc parentKey id, ctx = some m
          ∧ lookupGo m "messageAssociation" = some (GoValue.map msgAssoc)
          ∧ lookupGo msgAssoc "parentMessageKey" = some (GoValue.map parentKey)
          ∧ lookupGo parentKey "ID" = some (GoValue.str id)
          ∧ id ≠ "") →
        hasParentMessageKey ctx = ("", false)) := by
  cases ctx with
  | none =>
    constructor
    · intro id
      simp [hasParentMessageKey]
    · intro _
      rfl
  | some m =>
    cases h1 : lookupGo m "messageAssociation" with
    | none =>
      constructor
      · intro id
        simp [hasParentMessageKey, h1]
      · intro _
        simp [hasParentMessageKey, h1]
    | some v1 =>
      cases v1 with
      | map msgAssoc =>
        cases h2 : lookupGo msgAssoc "parentMessageKey" with
        | none =>
          constructor
          · intro id
            simp [hasParentMessageKey, h1, h2]
          · intro _
            simp [hasParentMessageKey, h1, h2]
        | some v2 =>
          cases v2 with
          | map parentKey =>
            cases h3 : lookupGo parentKey "ID" with
            | none =>
              constructor
              · intro id
                simp [hasParentMessageKey, h1, h2, h3]
              · intro _
                simp [hasParentMessageKey, h1, h2, h3]
            | some v3 =>
              cases v3 with
              | str idv =>
                cases hid : idv != "" with
                | true =>
                  have hne : idv ≠ "" := bne_iff_ne.mp hid
                  constructor
                  · intro id
                    simp only [hasParentMessageKey, h1, h2, h3, hid, if_true]
                    constructor
                    · intro h
                      have hi : idv = id := (Prod.mk.injEq _ _ _ _).mp h |>.1
                      subst hi
                      exact ⟨hne, m, msgAssoc, parentKey, rfl, h1, h2, h3⟩
                    · rintro ⟨hidne, m', msgAssoc', parentKey', hm, hh1, hh2, hh3⟩
                      cases hm
                      rw [h1] at hh1
                      cases hh1
                      rw [h2] at hh2
                      cases hh2
                      rw [h3] at hh3
                      cases hh3
                      rfl
                  · intro hn
                    exact absurd ⟨m, msgAssoc, parentKey, idv, rfl, h1, h2, h3, hne⟩ hn
                | false =>
                  have heq : idv = "" := by
                    have := (bne_iff_ne (a := idv) (b := "")).not.mp (by simp [hid])
                    simpa using this
                  constructor
                  · intro id
                    simp [hasParentMessageKey, h1, h2, h3, hid, heq]
                    exact fun hne h => hne h.symm
                  · intro _
                    simp [hasParentMessageKey, h1, h2, h3, hid]
              | int n =>
                constructor
                · intro id
                  simp [hasParentMessageKey, h1, h2, h3]
                · intro _
                  simp [hasParentMessageKey, h1, h2, h3]
              | bool b =>
                constructor
                · intro id
                  simp [hasParentMessageKey, h1, h2, h3]
                · intro _
                  simp [hasParentMessageKey, h1, h2, h3]
              | map mm =>
                constructor
                · intro id
                  simp [hasParentMessageKey, h1, h2, h3]
                · intro _
                  simp [hasParentMessageKey, h1, h2, h3]
              | arr xs =>
                constructor
                · intro id
                  simp [hasParentMessageKey, h1, h2, h3]
                · intro _
                  simp [hasParentMessageKey, h1, h2, h3]
              | null =>
                constructor
                · intro id
                  simp [hasParentMessageKey, h1, h2, h3]
                · intro _
                  simp [hasParentMessageKey, h1, h2, h3]
          | str sv =>
            constructor
            · intro id
              simp [hasParentMessageKey, h1, h2]
            · intro _
              simp [hasParentMessageKey, h1, h2]
          | int n =>
            constructor
            · intro id
              simp [hasParentMessageKey, h1, h2]
            · intro _
              simp [hasParentMessageKey, h1, h2]
          | bool b =>
            constructor
            · intro id
              simp [hasParentMessageKey, h1, h2]
            · intro _
              simp [hasParentMessageKey, h1, h2]
          | arr xs =>
            constructor
            · intro id
              simp [hasParentMessageKey, h1, h2]
            · intro _
              simp [hasParentMessageKey, h1, h2]
          | null =>
            constructor
            · intro id
              simp [hasParentMessageKey, h1, h2]
            · intro _
              simp [hasParentMessageKey, h1, h2]
      | str sv =>
        constructor
        · intro id
          simp [hasParentMessageKey, h1]
        · intro _
          simp [hasParentMessageKey, h1]
      | int n =>
        constructor
        · intro id
          simp [hasParentMessageKey, h1]
        · intro _
          simp [hasParentMessageKey, h1]
      | bool b =>
        constructor
        · intro id
          simp [hasParentMessageKey, h1]
        · intro _
          simp [hasParentMessageKey, h1]
      | arr xs =>
        constructor
        · intro id
          simp [hasParentMessageKey, h1]
        · intro _
          simp [hasParentMessageKey, h1]
      | null =>
        constructor
        · intro id
          simp [hasParentMessageKey, h1]
        · intro _
          simp [hasParentMessageKey, h1]

/-- C8 witness: a fully shaped context yields its id with the found flag. -/
theorem hasParentMessageKey_spec_witness :
    hasParentMessageKey (some [("messageAssociation", GoValue.map [("parentMessageKey",
        GoValue.map [("ID", GoValue.str "ALBUM1")])])]) = ("ALBUM1", true) :=
  ((hasParentMessageKey_spec (some [("messageAssociation", GoValue.map [("parentMessageKey",
      GoValue.map [("ID", GoValue.str "ALBUM1")])])])).1 "ALBUM1").mpr
    ⟨by decide, [("messageAssociation", GoValue.map [("parentMessageKey",
        GoValue.map [("ID", GoValue.str "ALBUM1")])])],
      [("parentMessageKey", GoValue.map [("ID", GoValue.str "ALBUM1")])],
      [("ID", GoValue.str "ALBUM1")], rfl, rfl, rfl, rfl⟩

/-- C1: for any key and any sequence of `AddMessage` calls each completing
strictly within the debounce window of its predecessor, exactly one flush of
that key occurs once the window elapses with no further arrival; its payload
holds exactly those items in call-completion order, and the album is handed
to the dispatcher at most once. -/
theorem debounce_correctness (wait : Nat) (en : Bool) (k : String)
    (c : Nat × AlbumMessage × AlbumData) (rest : List (Nat × AlbumMessage × AlbumData))
    (hw : withinWindow wait c.1 rest) :
    ∃ p : AlbumWebhookPayload,
      (quiesce (runEvents (initAlbumBuffer wait en) (addEvents k (c :: rest)))).flushLog = [p]
      ∧ p.albumID = k
      ∧ p.images = (c :: rest).map (fun x => x.2.1)
      ∧ p.totalImages = (c :: rest).length
      ∧ (quiesce (runEvents (initAlbumBuffer wait en) (addEvents k (c :: rest)))).webhookLog.length ≤ 1
      ∧ (quiesce (runEvents (initAlbumBuffer wait en) (addEvents k (c :: rest)))).albums = [] := by
  rw [single_group_run wait en k c rest hw]
  refine ⟨buildPayload (groupAlbum wait k c rest), rfl, ?_, ?_, ?_, ?_, rfl⟩
  · rw [show (buildPayload (groupAlbum wait k c rest)).albumID
        = (groupAlbum wait k c rest).albumID from rfl]
    rw [groupAlbum, foldAlbum_albumID]
    rfl
  · rw [show (buildPayload (groupAlbum wait k c rest)).images
        = (groupAlbum wait k c rest).messages from rfl]
    rw [groupAlbum, foldAlbum_messages]
    rw [show (createdAlbum wait k c).messages = [c.2.1] from rfl]
    simp
  · rw [show (buildPayload (groupAlbum wait k c rest)).totalImages
        = (groupAlbum wait k c rest).messages.length from rfl]
    rw [groupAlbum, foldAlbum_messages]
    rw [show (createdAlbum wait k c).messages = [c.2.1] from rfl]
    simp
  · rw [show (singleGroupFinal wait en k c rest).webhookLog
        = (match (groupAlbum wait k c rest).myCli with
           | none => []
           | some cli => [(cli, buildPostmap (buildPayload (groupAlbum wait k c rest)))]) from rfl]
    cases (groupAlbum wait k c rest).myCli <;> simp

/-- C1 witness: two calls 3 time-units apart inside a 5-unit window. -/
theorem debounce_correctness_witness :
    withinWindow 5 0 [(3, msgTwo, seedEmptyCap)]
    ∧ ∃ p : AlbumWebhookPayload,
      (quiesce (runEvents (initAlbumBuffer 5 true)
          (addEvents "ALBUM1" ((0, msgOne, seedHi) :: [(3, msgTwo, seedEmptyCap)])))).flushLog = [p]
      ∧ p.albumID = "ALBUM1"
      ∧ p.images = ((0, msgOne, seedHi) :: [(3, msgTwo, seedEmptyCap)]).map (fun x => x.2.1)
      ∧ p.totalImages = ((0, msgOne, seedHi) :: [(3, msgTwo, seedEmptyCap)]).length
      ∧ (quiesce (runEvents (initAlbumBuffer 5 true)
          (addEvents "ALBUM1" ((0, msgOne, seedHi) :: [(3, msgTwo, seedEmptyCap)])))).webhookLog.length ≤ 1
      ∧ (quiesce (runEvents (initAlbumBuffer 5 true)
          (addEvents "ALBUM1" ((0, msgOne, seedHi) :: [(3, msgTwo, seedEmptyCap)])))).albums = [] :=
  ⟨⟨by norm_num, by norm_num, trivial⟩,
   debounce_correctness 5 true "ALBUM1" (0, msgOne, seedHi) [(3, msgTwo, seedEmptyCap)]
     ⟨by norm_num, by norm_num, trivial⟩⟩

/-- C2 counterexample: a flushed album seeded with primary sender
"primary@lid" and alternate sender "alt@s.whatsapp.net" delivers a payload
whose primary-sender field (`Sender`) is the alternate identifier, not the
seed's primary one. -/
theorem payload_sender_counterexample :
    ((quiesce (runEvents (initAlbumBuffer 5 true)
        (addEvents "A1" [(0, msgOne, seedHi)]))).flushLog.map
        (fun p => (p.sender, p.senderLid)))
      = [("alt@s.whatsapp.net", "primary@lid")]
    ∧ seedHi.senderJID = "primary@lid"
    ∧ seedHi.senderAlt = "alt@s.whatsapp.net"
    ∧ ("alt@s.whatsapp.net" : String) ≠ "primary@lid" :=
  ⟨rfl, rfl, rfl, by decide⟩

/-- C2 amended: the flushed payload's `Sender` field carries the seed
metadata's secondary/alternate-sender identifier and its `SenderLid` field
carries the seed metadata's primary-sender identifier — the two are crossed
relative to the claim; the conversation id is carried through unchanged. -/
theorem payload_sender_mapping (wait : Nat) (en : Bool) (k : String)
    (c : Nat × AlbumMessage × AlbumData) (rest : List (Nat × AlbumMessage × AlbumData))
    (hw : withinWindow wait c.1 rest) :
    ∃ p : AlbumWebhookPayload,
      (quiesce (runEvents (initAlbumBuffer wait en) (addEvents k (c :: rest)))).flushLog = [p]
      ∧ p.sender = c.2.2.senderAlt
      ∧ p.senderLid = c.2.2.senderJID
      ∧ p.chat = c.2.2.chatJID := by
  rw [single_group_run wait en k c rest hw]
  refine ⟨buildPayload (groupAlbum wait k c rest), rfl, ?_, ?_, ?_⟩
  · rw [show (buildPayload (groupAlbum wait k c rest)).sender
        = (groupAlbum wait k c rest).senderAlt from rfl]
    rw [groupAlbum, foldAlbum_senderAlt]
    rfl
  · rw [show (buildPayload (groupAlbum wait k c rest)).senderLid
        = (groupAlbum wait k c rest).senderJID from rfl]
    rw [groupAlbum, foldAlbum_senderJID]
    rfl
  · rw [show (buildPayload (groupAlbum wait k c rest)).chat
        = (groupAlbum wait k c rest).chatJID from rfl]
    rw [groupAlbum, foldAlbum_chatJID]
    rfl

/-- C2 amended witness: a one-call group with distinct sender identifiers. -/
theorem payload_sender_mapping_witness :
    withinWindow 5 0 ([] : List (Nat × AlbumMessage × AlbumData))
    ∧ ∃ p : AlbumWebhookPayload,
      (quiesce (runEvents (initAlbumBuffer 5 true)
          (addEvents "A1" ((0, msgOne, seedHi) :: [])))).flushLog = [p]
      ∧ p.sender = seedHi.senderAlt
      ∧ p.senderLid = seedHi.senderJID
      ∧ p.chat = seedHi.chatJID :=
  ⟨trivial, payload_sender_mapping 5 true "A1" (0, msgOne, seedHi) [] trivial⟩

/-- C3 counterexample: in the concrete two-message scenario the delivered
payload's type tag is "MessageAlbum", not "Aggregate". -/
theorem concrete_scenario_type_counterexample :
    ((quiesce (runEvents (initAlbumBuffer 5 true)
        [ExtEvent.add 0 "ALBUM1" msgOne seedHi,
         ExtEvent.add 3 "ALBUM1" msgTwo seedEmptyCap])).flushLog.map
        (fun p => p.type))
      = ["MessageAlbum"]
    ∧ ("MessageAlbum" : String) ≠ "Aggregate" :=
  ⟨rfl, by decide⟩

/-- C3 amended: the concrete scenario — create "ALBUM1" with m1 (caption
"hi"), extend within the window with m2 (empty caption), no further
arrivals — returns `wasCreated` true then false, makes exactly one delivery
whose payload has type tag "MessageAlbum", group key "ALBUM1", two items
[m1, m2] and caption "hi", and leaves the pending count at 0. -/
theorem concrete_scenario_amended :
    (addMessage (initAlbumBuffer 5 true) 0 "ALBUM1" msgOne (some seedHi)).map Prod.snd
      = some true
    ∧ getPendingCount (stepEvent (initAlbumBuffer 5 true)
        (ExtEvent.add 0 "ALBUM1" msgOne seedHi)) = 1
    ∧ (addMessage (fireDueBefore (stepEvent (initAlbumBuffer 5 true)
          (ExtEvent.add 0 "ALBUM1" msgOne seedHi)) 3) 3 "ALBUM1" msgTwo
        (some seedEmptyCap)).map Prod.snd = some false
    ∧ (quiesce (runEvents (initAlbumBuffer 5 true)
        [ExtEvent.add 0 "ALBUM1" msgOne seedHi,
         ExtEvent.add 3 "ALBUM1" msgTwo seedEmptyCap])).flushLog.map
        (fun p => (p.type, p.albumID, p.totalImages, p.caption, p.images))
      = [("MessageAlbum", "ALBUM1", 2, "hi", [msgOne, msgTwo])]
    ∧ (quiesce (runEvents (initAlbumBuffer 5 true)
        [ExtEvent.add 0 "ALBUM1" msgOne seedHi,
         ExtEvent.add 3 "ALBUM1" msgTwo seedEmptyCap])).webhookLog.length = 1
    ∧ getPendingCount (quiesce (runEvents (initAlbumBuffer 5 true)
        [ExtEvent.add 0 "ALBUM1" msgOne seedHi,
         ExtEvent.add 3 "ALBUM1" msgTwo seedEmptyCap])) = 0 :=
  ⟨rfl, rfl, rfl, rfl, rfl, rfl⟩

end AlbumBuffer
